import Mathlib

/-!
Verification of the multi-provider orchestration layer of the
`idea-ad-creator` application against its natural-language specification.

The TypeScript sources are shallowly embedded: JavaScript objects used as
string-keyed maps become association lists, `Promise` rejection becomes
`Except String`, network traffic is modelled by an explicit environment
(an oracle giving each HTTP response) together with a trace of the calls
that were issued, and the React audio-recorder hook becomes an explicit
state machine.  Each definition mirrors one function of the source
(`src/services/apiConfig.ts`, `src/services/imageProviderFactory.ts`,
`src/services/runway.ts`, `src/services/heygen.ts`,
`src/services/videoProviderFactory.ts`, `src/hooks/useAudioRecorder.ts`).
-/

namespace AdCreator

/-! ## Association lists for JavaScript objects used as maps

A JavaScript object literal keyed by provider identifiers
(`this.settings.config`) is embedded as an association list of strings.
Property assignment overwrites in place or appends; `delete` removes the
entry. -/

/-- Lookup of `m[k]` on a JS object: `none` models `undefined`. -/
def lookupEntry : List (String × String) → String → Option String
  | [], _ => none
  | (k', v) :: rest, k => if k' = k then some v else lookupEntry rest k

/-- Property assignment `m[k] = v`: overwrite in place, else append. -/
def setEntry : List (String × String) → String → String → List (String × String)
  | [], k, v => [(k, v)]
  | (k', v') :: rest, k, v =>
      if k' = k then (k, v) :: rest else (k', v') :: setEntry rest k v

/-- `delete m[k]`: remove the entry entirely. -/
def removeEntry : List (String × String) → String → List (String × String)
  | [], _ => []
  | (k', v') :: rest, k =>
      if k' = k then rest else (k', v') :: removeEntry rest k

/-! JavaScript string primitives used by the embedded code, defined by
structural recursion over the character list so that concrete instances
evaluate inside the kernel. -/

/-- `s.trim()`: strip leading and trailing whitespace. -/
def jsTrim (s : String) : String :=
  ⟨((s.toList.dropWhile Char.isWhitespace).reverse.dropWhile
      Char.isWhitespace).reverse⟩

/-- `s.startsWith(pre)`. -/
def jsStartsWith (s pre : String) : Bool :=
  pre.toList.isPrefixOf s.toList

/-- `s === ''` (string falsiness). -/
def strIsEmpty (s : String) : Bool :=
  s.toList.isEmpty

theorem strIsEmpty_eq_false_iff (s : String) :
    strIsEmpty s = false ↔ s ≠ "" := by
  cases s with
  | mk data =>
      cases data <;>
        simp [strIsEmpty, String.toList, String.ext_iff]

theorem lookupEntry_setEntry_self (m : List (String × String)) (k v : String) :
    lookupEntry (setEntry m k v) k = some v := by
  induction m with
  | nil => simp [setEntry, lookupEntry]
  | cons hd tl ih =>
      by_cases h : hd.1 = k
      · simp [setEntry, lookupEntry, h]
      · simp [setEntry, lookupEntry, h, ih]

/-! ## `src/services/apiConfig.ts` — the settings store

`ApiSettings` is the in-memory snapshot held by `ApiConfigManager`.
Provider selections are kept as strings (the TypeScript union types
`ImageProvider`/`TextProvider`/`VideoProvider` erase to strings at
runtime, and `importSettings` can store arbitrary parsed data). -/

structure ApiSettings where
  config : List (String × String)
  selectedImageProvider : String
  selectedTextProvider : String
  selectedVideoProvider : String
deriving Repr, DecidableEq

/-- The hard-coded defaults returned by `loadSettings` when nothing is
stored or the stored blob is unparseable. -/
def defaultSettings : ApiSettings :=
  { config := []
    selectedImageProvider := "openai"
    selectedTextProvider := "openai"
    selectedVideoProvider := "heygen" }

/-- `ApiConfigManager.updateApiKey`: stores the trimmed key
unconditionally (`this.settings.config[provider] = apiKey.trim()`);
no validation is performed here. -/
def updateApiKey (provider apiKey : String) (s : ApiSettings) : ApiSettings :=
  { s with config := setEntry s.config provider (jsTrim apiKey) }

/-- `ApiConfigManager.removeApiKey`: `delete this.settings.config[provider]`. -/
def removeApiKey (provider : String) (s : ApiSettings) : ApiSettings :=
  { s with config := removeEntry s.config provider }

/-- `ApiConfigManager.getApiKey`: `this.settings.config[provider]`. -/
def getApiKey (provider : String) (s : ApiSettings) : Option String :=
  lookupEntry s.config provider

/-- `ApiConfigManager.hasApiKey`: `!!this.settings.config[provider]?.trim()` —
the entry must exist and trim to a non-empty string. -/
def hasApiKey (provider : String) (s : ApiSettings) : Bool :=
  match lookupEntry s.config provider with
  | none => false
  | some v => !strIsEmpty (jsTrim v)

/-- `ApiConfigManager.validateApiKey`: provider-specific shape check
(recognized prefix, minimum length). -/
def validateApiKey (provider apiKey : String) : Bool :=
  match provider with
  | "openai" => jsStartsWith apiKey "sk-" && apiKey.length > 20
  | "runware" => apiKey.length > 10
  | "runway" => apiKey.length > 10
  | "midjourney" => apiKey.length > 10
  | "replicate" => jsStartsWith apiKey "r8_" && apiKey.length > 20
  | "claude" => jsStartsWith apiKey "sk-" && apiKey.length > 20
  | "gemini" => apiKey.length > 10
  | "heygen" => apiKey.length > 10
  | "synthesia" => apiKey.length > 10
  | "luma" => apiKey.length > 10
  | "pika" => apiKey.length > 10
  | "elevenlabs" => apiKey.length > 10
  | _ => apiKey.length > 0

/-- `ApiConfigManager.setImageProvider`. -/
def setImageProvider (provider : String) (s : ApiSettings) : ApiSettings :=
  { s with selectedImageProvider := provider }

/-- `ApiConfigManager.setTextProvider`. -/
def setTextProvider (provider : String) (s : ApiSettings) : ApiSettings :=
  { s with selectedTextProvider := provider }

/-- `ApiConfigManager.setVideoProvider`. -/
def setVideoProvider (provider : String) (s : ApiSettings) : ApiSettings :=
  { s with selectedVideoProvider := provider }

/-! ## JSON values for `exportSettings` / `importSettings`

`exportSettings` is `JSON.stringify(this.settings, null, 2)` and
`importSettings` begins with `JSON.parse(settingsJson)`.  We embed the
blob at the value level: a blob is `Option Json`, where `none` models
text that fails to parse (the `catch` path) and `some j` models the
parsed value.  `JSON.parse ∘ JSON.stringify` is the identity on these
values, so export produces `some` of the encoded snapshot. -/

inductive Json where
  | null : Json
  | bool (b : Bool) : Json
  | num (n : Int) : Json
  | str (s : String) : Json
  | arr (elems : List Json) : Json
  | obj (fields : List (String × Json)) : Json
deriving Repr

/-- Field lookup on a list of JSON object fields. -/
def lookupField : List (String × Json) → String → Option Json
  | [], _ => none
  | (k', v) :: rest, k => if k' = k then some v else lookupField rest k

/-- `j.k` — property access; `none` models `undefined` (non-objects give
`undefined` or throw, and in `importSettings` a throw also lands in the
rejecting branch). -/
def getField : Json → String → Option Json
  | .obj fields, k => lookupField fields k
  | _, _ => none

/-- Assignment on JSON object fields: overwrite in place or append. -/
def setFieldList : List (String × Json) → String → Json → List (String × Json)
  | [], k, v => [(k, v)]
  | (k', v') :: rest, k, v =>
      if k' = k then (k, v) :: rest else (k', v') :: setFieldList rest k v

/-- `j.k = v` — property assignment (no-op on non-objects). -/
def setField : Json → String → Json → Json
  | .obj fields, k, v => .obj (setFieldList fields k v)
  | other, _, _ => other

/-- JavaScript truthiness of `j.k` as used in the `if` conditions of
`importSettings`: `undefined`, `null`, `false`, `0`, and `""` are falsy. -/
def truthy : Option Json → Bool
  | none => false
  | some .null => false
  | some (.bool b) => b
  | some (.num n) => !(n == 0)
  | some (.str s) => !strIsEmpty s
  | some (.arr _) => true
  | some (.obj _) => true

/-- The JSON value `JSON.stringify` produces from an `ApiSettings`
snapshot (fields in the object's insertion order). -/
def encodeSettings (s : ApiSettings) : Json :=
  .obj [("config", .obj (s.config.map (fun p => (p.1, Json.str p.2)))),
        ("selectedImageProvider", .str s.selectedImageProvider),
        ("selectedTextProvider", .str s.selectedTextProvider),
        ("selectedVideoProvider", .str s.selectedVideoProvider)]

/-- `ApiConfigManager.exportSettings`: serialize the current snapshot. -/
def exportSettings (s : ApiSettings) : Option Json :=
  some (encodeSettings s)

/-- `ApiConfigManager.importSettings`.  The blob is the parse outcome of
the supplied text (`none` = parse failure).  The stored settings object
is kept at the JSON level because `this.settings = imported` installs
the raw parsed value.  Returns the boolean result together with the
settings object after the call (`current` when rejected). -/
def importSettings (blob : Option Json) (current : Json) : Bool × Json :=
  match blob with
  | none => (false, current)
  | some imported =>
      if truthy (getField imported "config") &&
          truthy (getField imported "selectedImageProvider") then
        let i1 :=
          if truthy (getField imported "selectedTextProvider") then imported
          else setField imported "selectedTextProvider" (.str "openai")
        let i2 :=
          if truthy (getField i1 "selectedVideoProvider") then i1
          else setField i1 "selectedVideoProvider" (.str "heygen")
        (true, i2)
      else (false, current)

/-! ## `src/services/imageProviderFactory.ts` — the image factory

The factory's static registry maps the five `ImageProvider` identifiers
to concrete implementations; `OpenAIProvider` and `RunwareProvider`
delegate to HTTP services, the other three are stubs.  Network traffic
is modelled by an environment `NetEnv` giving each service call's
response, and every function returns the list of network calls it
issued, so "fails before any network call" is the statement that this
trace is empty. -/

inductive ImgProviderImpl where
  | openaiP | runwareP | runwayP | midjourneyP | replicateP
deriving Repr, DecidableEq

/-- The static registry `ImageProviderFactory.providers`. -/
def imageRegistry : String → Option ImgProviderImpl
  | "openai" => some .openaiP
  | "runware" => some .runwareP
  | "runway" => some .runwayP
  | "midjourney" => some .midjourneyP
  | "replicate" => some .replicateP
  | _ => none

/-- Each implementation's `getProviderName()`. -/
def imgProviderName : ImgProviderImpl → String
  | .openaiP => "OpenAI DALL-E 3"
  | .runwareP => "Runware AI"
  | .runwayP => "Runway ML (Em breve)"
  | .midjourneyP => "Midjourney (Em breve)"
  | .replicateP => "Replicate (Em breve)"

/-- Each implementation's `isConfigured()`: a pure read of the settings
store (`hasApiKey`); the three stubs always report `false`. -/
def imgIsConfigured (p : ImgProviderImpl) (s : ApiSettings) : Bool :=
  match p with
  | .openaiP => hasApiKey "openai" s
  | .runwareP => hasApiKey "runware" s
  | .runwayP => false
  | .midjourneyP => false
  | .replicateP => false

/-- `ImageProviderFactory.getProvider`: explicit override or the store's
selected image provider, then registry lookup (`Provider ... não
encontrado` is thrown for an identifier outside the registry). -/
def getProviderImage (providerType : Option String) (s : ApiSettings) :
    Except String ImgProviderImpl :=
  let selectedProvider := providerType.getD s.selectedImageProvider
  match imageRegistry selectedProvider with
  | some provider => .ok provider
  | none => .error ("Provider " ++ selectedProvider ++ " não encontrado")

/-- One network call to a generation service. -/
inductive NetCall where
  | openaiImage | runwareImage
deriving Repr, DecidableEq

/-- Response of `OpenAIService.generateImage`. -/
structure OpenAIServiceResult where
  url : String
  revisedPrompt : Option String
deriving Repr, DecidableEq

/-- Response of `RunwareService.generateImage`. -/
structure RunwareServiceResult where
  imageURL : String
  positivePrompt : String
  seed : Option Nat
deriving Repr, DecidableEq

/-- The network environment: what each service call would return
(`Except.error` = rejected promise from the HTTP layer). -/
structure NetEnv where
  openaiImage : Except String OpenAIServiceResult
  runwareImage : Except String RunwareServiceResult

/-- `UnifiedImageParams` (optional generation knobs omitted from claims
are kept as optional fields). -/
structure UnifiedImageParams where
  prompt : String
  mainText : Option String := none
  subText : Option String := none
  seed : Option Nat := none
deriving Repr, DecidableEq

/-- `UnifiedImageResult`: the unified result shape with the echo of the
provider that fulfilled the request. -/
structure UnifiedImageResult where
  url : String
  prompt : String
  seed : Option Nat
  revisedPrompt : Option String
  provider : String
deriving Repr, DecidableEq

/-- The concrete implementations' `generateImage`, including each
provider's `getService()` guard (`if (!apiKey) throw ...` — absent or
empty-string key) and the stubs' `não implementado` throws.  Returns the
outcome together with the trace of network calls issued. -/
def imgProviderGenerate (p : ImgProviderImpl) (s : ApiSettings) (env : NetEnv)
    (params : UnifiedImageParams) :
    Except String UnifiedImageResult × List NetCall :=
  match p with
  | .openaiP =>
      match getApiKey "openai" s with
      | none => (.error "Chave API OpenAI não configurada", [])
      | some apiKey =>
          if strIsEmpty apiKey then (.error "Chave API OpenAI não configurada", [])
          else
            match env.openaiImage with
            | .error e => (.error e, [.openaiImage])
            | .ok r =>
                (.ok { url := r.url, prompt := params.prompt, seed := none,
                       revisedPrompt := r.revisedPrompt, provider := "openai" },
                 [.openaiImage])
  | .runwareP =>
      match getApiKey "runware" s with
      | none => (.error "Chave API Runware não configurada", [])
      | some apiKey =>
          if strIsEmpty apiKey then (.error "Chave API Runware não configurada", [])
          else
            match env.runwareImage with
            | .error e => (.error e, [.runwareImage])
            | .ok r =>
                (.ok { url := r.imageURL, prompt := r.positivePrompt,
                       seed := r.seed, revisedPrompt := none,
                       provider := "runware" },
                 [.runwareImage])
  | .runwayP => (.error "Runway provider não implementado ainda", [])
  | .midjourneyP => (.error "Midjourney provider não implementado ainda", [])
  | .replicateP => (.error "Replicate provider não implementado ainda", [])

/-- `ImageProviderFactory.generateImage`: resolve the provider, fail
fast with a configuration error when `isConfigured()` is false, else
call the implementation.  All thrown values in the embedded code are
`Error`s, so the `catch` re-throws them unchanged. -/
def factoryGenerateImage (s : ApiSettings) (env : NetEnv)
    (params : UnifiedImageParams) (providerType : Option String) :
    Except String UnifiedImageResult × List NetCall :=
  match getProviderImage providerType s with
  | .error e => (.error e, [])
  | .ok provider =>
      if imgIsConfigured provider s then imgProviderGenerate provider s env params
      else
        (.error (imgProviderName provider ++
          " não está configurado. Configure a chave API primeiro."), [])

/-! ## `src/services/runway.ts` — submit-then-poll image generation

`pollForCompletion` queries the task endpoint up to `maxAttempts` times.
The status environment `env : Nat → RunwayPollResp` gives the response
of the `i`-th status check.  The outcomes of the loop are kept as
distinct constructors: a terminal provider result (returned), a failed
status check (thrown `Erro ao verificar status`), and the synthesized
timeout (thrown after the budget is exhausted).  The second component
counts the status checks actually issued. -/

inductive RunwayStatus where
  | PENDING | RUNNING | SUCCEEDED | FAILED
deriving Repr, DecidableEq

/-- `RunwayTaskResult` — parsed body of one status check. -/
structure RunwayTaskResult where
  id : String
  status : RunwayStatus
  image : Option String
  failureReason : Option String
  seed : Option Nat
deriving Repr, DecidableEq

/-- Response of one status-check fetch: HTTP failure or a parsed task. -/
inductive RunwayPollResp where
  | httpError (code : Nat)
  | ok (r : RunwayTaskResult)
deriving Repr, DecidableEq

/-- `result.status === 'SUCCEEDED' || result.status === 'FAILED'`. -/
def isTerminalRunway (r : RunwayTaskResult) : Bool :=
  r.status == .SUCCEEDED || r.status == .FAILED

/-- Status checks that keep the loop going: an `ok` response whose
status is neither `SUCCEEDED` nor `FAILED`. -/
def nonTerminalOk (resp : RunwayPollResp) : Bool :=
  match resp with
  | .ok r => !isTerminalRunway r
  | .httpError _ => false

/-- Outcome of `pollForCompletion`. -/
inductive PollOutcome where
  | terminal (r : RunwayTaskResult)
  | statusCheckError (code : Nat)
  | timeout
deriving Repr, DecidableEq

/-- Body of `while (attempts < maxAttempts)`: `fuel` is the remaining
attempt budget and `i` the index of the next status check. -/
def pollGo (env : Nat → RunwayPollResp) : Nat → Nat → PollOutcome × Nat
  | 0, _ => (.timeout, 0)
  | fuel + 1, i =>
      match env i with
      | .httpError code => (.statusCheckError code, 1)
      | .ok r =>
          if isTerminalRunway r then (.terminal r, 1)
          else
            let rest := pollGo env fuel (i + 1)
            (rest.1, rest.2 + 1)

/-- `RunwayService.pollForCompletion` with its attempt budget
(`maxAttempts = 30` at every call site). -/
def pollForCompletion (env : Nat → RunwayPollResp) (maxAttempts : Nat) :
    PollOutcome × Nat :=
  pollGo env maxAttempts 0

/-- Submission response of the `text_to_image` POST. -/
inductive RunwaySubmitResp where
  | httpError (code : Nat) (body : String)
  | ok (taskId : String)
deriving Repr, DecidableEq

/-- `RunwayGeneratedImage` — the service's success shape. -/
structure RunwayGeneratedImage where
  url : String
  seed : Option Nat
  prompt : String
  taskId : String
deriving Repr, DecidableEq

/-- `result.failureReason || 'Erro desconhecido'` (empty string falsy). -/
def runwayFailureReason (r : RunwayTaskResult) : String :=
  match r.failureReason with
  | none => "Erro desconhecido"
  | some reason => if strIsEmpty reason then "Erro desconhecido" else reason

/-- `RunwayService.generateImage`: submit, poll, reject provider-reported
failures (`Geração falhou`), and reject a terminal success whose `image`
field is missing or empty (`if (!result.image)` — `Nenhuma imagem
retornada`). -/
def runwayGenerateImage (submit : RunwaySubmitResp)
    (env : Nat → RunwayPollResp) (prompt : String) :
    Except String RunwayGeneratedImage :=
  match submit with
  | .httpError code body =>
      .error ("Runway API erro: " ++ toString code ++ " - " ++ body)
  | .ok _ =>
      match pollForCompletion env 30 with
      | (.timeout, _) => .error "Timeout: Geração levou muito tempo para completar"
      | (.statusCheckError code, _) =>
          .error ("Erro ao verificar status: " ++ toString code)
      | (.terminal result, _) =>
          if result.status == .FAILED then
            .error ("Geração falhou: " ++ runwayFailureReason result)
          else
            match result.image with
            | none => .error "Nenhuma imagem retornada"
            | some img =>
                if strIsEmpty img then .error "Nenhuma imagem retornada"
                else .ok { url := img, seed := result.seed, prompt := prompt,
                           taskId := result.id }

/-! ## `src/services/heygen.ts` and the HeyGen branch of
`src/services/videoProviderFactory.ts`

`HeyGenService.pollVideoStatus` wraps each status check in
`try { ... } catch { attempts++ }`, so an HTTP failure — and even the
`throw` on a `failed` status — only consumes an attempt.  A `completed`
status returns the video object with whatever `video_url` the provider
reported (possibly absent).  `HeyGenProvider.generateVideo` then maps
`video_url: result.video_url || ''`. -/

/-- Response of one HeyGen status check. -/
inductive HeyGenPollResp where
  | httpError (code : Nat)
  | ok (status : String) (videoUrl : Option String)
      (thumbnailUrl : Option String) (duration : Option Nat)
deriving Repr, DecidableEq

/-- `HeyGenGeneratedVideo` — the service's result shape. -/
structure HeyGenGeneratedVideo where
  videoId : String
  videoUrl : Option String
  status : String
  thumbnailUrl : Option String
  duration : Option Nat
deriving Repr, DecidableEq

/-- `HeyGenService.pollVideoStatus`: `completed` returns; everything
else (HTTP error, `failed` throw caught by the loop's own catch, or a
non-terminal status) consumes one attempt; exhaustion throws the
timeout error. -/
def heyGenPollGo (videoId : String) (env : Nat → HeyGenPollResp) :
    Nat → Nat → Except String HeyGenGeneratedVideo
  | 0, _ => .error "Timeout na geração do vídeo. Tente novamente."
  | fuel + 1, i =>
      match env i with
      | .httpError _ => heyGenPollGo videoId env fuel (i + 1)
      | .ok status videoUrl thumbnailUrl duration =>
          if status = "completed" then
            .ok { videoId := videoId, videoUrl := videoUrl,
                  status := "completed", thumbnailUrl := thumbnailUrl,
                  duration := duration }
          else heyGenPollGo videoId env fuel (i + 1)

/-- Submission response of HeyGen's `video/generate` POST. -/
inductive HeyGenSubmitResp where
  | failure (message : String)
  | ok (videoId : String)
deriving Repr, DecidableEq

/-- `HeyGenService.generateVideo`: submit then poll; the surrounding
`try/catch` replaces any thrown error with one generic message. -/
def heyGenServiceGenerateVideo (submit : HeyGenSubmitResp)
    (env : Nat → HeyGenPollResp) : Except String HeyGenGeneratedVideo :=
  let inner : Except String HeyGenGeneratedVideo :=
    match submit with
    | .failure message => .error message
    | .ok videoId => heyGenPollGo videoId env 30 0
  match inner with
  | .ok v => .ok v
  | .error _ => .error "Falha na geração de vídeo. Verifique sua chave API HeyGen."

/-- `UnifiedVideoResult` as built by `HeyGenProvider.generateVideo`. -/
structure UnifiedVideoResult where
  videoUrl : String
  thumbnailUrl : Option String
  duration : Option Nat
  format : String
  provider : String
deriving Repr, DecidableEq

/-- `HeyGenProvider.generateVideo`: guard on the stored key, call the
service, and build the unified result with
`video_url: result.video_url || ''` and `format: params.format ||
'vertical'`. -/
def heyGenProviderGenerateVideo (s : ApiSettings) (submit : HeyGenSubmitResp)
    (env : Nat → HeyGenPollResp) (format : Option String) :
    Except String UnifiedVideoResult :=
  match getApiKey "heygen" s with
  | none => .error "Chave API HeyGen não configurada"
  | some apiKey =>
      if strIsEmpty apiKey then .error "Chave API HeyGen não configurada"
      else
        match heyGenServiceGenerateVideo submit env with
        | .error e => .error e
        | .ok result =>
            .ok { videoUrl := result.videoUrl.getD "",
                  thumbnailUrl := result.thumbnailUrl,
                  duration := result.duration,
                  format := format.getD "vertical",
                  provider := "heygen" }

/-! ## Reference semantics of `ApiConfigManager.getSettings`

`getSettings` is `return { ...this.settings }` — a *shallow* spread: a
new top-level object whose `config` field still points at the manager's
own credential object.  To make the aliasing observable we give the
credential object an explicit heap address: the manager and any snapshot
hold an address into a heap of credential maps, and object mutation is a
heap write. -/

/-- Heap of JS credential objects, indexed by address. -/
def ConfigHeap := List (List (String × String))

/-- Read the object at an address (out-of-range reads give `{}`;
unused with the addresses we construct). -/
def heapRead (h : ConfigHeap) (addr : Nat) : List (String × String) :=
  (h : List _).getD addr []

/-- Overwrite the object at an address. -/
def heapWrite (h : ConfigHeap) (addr : Nat) (m : List (String × String)) :
    ConfigHeap :=
  (h : List _).set addr m

/-- The manager's in-memory state, with `config` held by reference. -/
structure StoreState where
  configAddr : Nat
  selectedImageProvider : String
  selectedTextProvider : String
  selectedVideoProvider : String
deriving Repr, DecidableEq

/-- The object returned by `getSettings`: `{ ...this.settings }` copies
the top-level fields — including the `config` *reference* — into a new
object. -/
structure SettingsSnapshot where
  configAddr : Nat
  selectedImageProvider : String
  selectedTextProvider : String
  selectedVideoProvider : String
deriving Repr, DecidableEq

/-- `ApiConfigManager.getSettings` under reference semantics. -/
def getSettingsRef (st : StoreState) : SettingsSnapshot :=
  { configAddr := st.configAddr
    selectedImageProvider := st.selectedImageProvider
    selectedTextProvider := st.selectedTextProvider
    selectedVideoProvider := st.selectedVideoProvider }

/-- A caller mutating the snapshot's nested credential mapping:
`snapshot.config[key] = value` writes through the shared reference. -/
def snapshotSetConfigEntry (snap : SettingsSnapshot) (h : ConfigHeap)
    (key value : String) : ConfigHeap :=
  heapWrite h snap.configAddr (setEntry (heapRead h snap.configAddr) key value)

/-- The store's own later read `this.settings.config[provider]`
(`getApiKey`) under reference semantics. -/
def storeGetApiKey (st : StoreState) (h : ConfigHeap) (provider : String) :
    Option String :=
  lookupEntry (heapRead h st.configAddr) provider

/-! ## `src/hooks/useAudioRecorder.ts` — the audio capture machine

The hook's refs and state become one record.  Acquired input streams are
numbered by a fresh counter (`nextStreamId`); `stoppedTracks` records
every stream whose tracks have had `stop()` called, so the resource
claim "no hardware stream remains held" is `∀ i < nextStreamId, i ∈
stoppedTracks`.  `MediaRecorder.stop()`'s `onstop` handler (which builds
the blob, derives the URL and stops the tracks of whatever stream
`streamRef` currently holds) is modelled as running synchronously. -/

structure RecState where
  isRecording : Bool
  isPlaying : Bool
  isPaused : Bool
  hasRecordedBlob : Bool
  hasRecordedUrl : Bool
  duration : Nat
  lastError : Option String
  recorderRef : Option Nat
  audioElem : Bool
  streamRef : Option Nat
  timerOn : Bool
  nextStreamId : Nat
  stoppedTracks : List Nat
deriving Repr, DecidableEq

/-- The hook's initial state. -/
def initRec : RecState :=
  { isRecording := false, isPlaying := false, isPaused := false,
    hasRecordedBlob := false, hasRecordedUrl := false, duration := 0,
    lastError := none, recorderRef := none, audioElem := false,
    streamRef := none, timerOn := false, nextStreamId := 0,
    stoppedTracks := [] }

/-- The `mediaRecorder.onstop` handler: finalize the blob, create the
playback URL, then stop the tracks of the stream currently in
`streamRef` and null the ref. -/
def onRecorderStop (st : RecState) : RecState :=
  let st1 := { st with hasRecordedBlob := true, hasRecordedUrl := true }
  match st1.streamRef with
  | some sid =>
      { st1 with stoppedTracks := sid :: st1.stoppedTracks, streamRef := none }
  | none => st1

/-- `startRecording`: clear the error, acquire a stream (`ok = false`
models `getUserMedia` rejecting — permission denied), install the
stream and a fresh recorder, start the timer.  A stream already in
`streamRef` is silently overwritten, not stopped. -/
def startRecording (ok : Bool) (st : RecState) : RecState :=
  if ok then
    { st with
      lastError := none
      streamRef := some st.nextStreamId
      recorderRef := some st.nextStreamId
      nextStreamId := st.nextStreamId + 1
      isRecording := true
      duration := 0
      timerOn := true }
  else { st with lastError := some "Erro ao acessar microfone" }

/-- `stopRecording`: guarded by `mediaRecorderRef.current && isRecording`;
stops the recorder (firing `onstop`), clears the recording flag and the
timer. -/
def stopRecording (st : RecState) : RecState :=
  if st.recorderRef.isSome && st.isRecording then
    let st1 := onRecorderStop st
    { st1 with isRecording := false, timerOn := false }
  else st

/-- `playRecording` (no effect on streams; included for completeness). -/
def playRecording (st : RecState) : RecState :=
  if st.hasRecordedUrl && !st.isPlaying then
    { st with audioElem := true, isPlaying := true, isPaused := false }
  else st

/-- `pausePlayback` (no effect on streams; included for completeness). -/
def pausePlayback (st : RecState) : RecState :=
  if st.audioElem && st.isPlaying then
    { st with isPlaying := false, isPaused := true }
  else st

/-- `resetRecording`: stop an ongoing recording, drop the audio element,
clear the timer, revoke the URL, reset all state.  Note that it never
touches `streamRef` itself. -/
def resetRecording (st : RecState) : RecState :=
  let st1 := if st.isRecording then stopRecording st else st
  { st1 with
    isPlaying := false
    isPaused := false
    hasRecordedBlob := false
    hasRecordedUrl := false
    duration := 0
    lastError := none
    timerOn := false
    isRecording := false
    audioElem := false }

/-- The calls the resource claim quantifies over. -/
inductive RecEvent where
  | start (ok : Bool)
  | stop
  | reset
deriving Repr, DecidableEq

/-- One call of the hook's API. -/
def recStep (st : RecState) : RecEvent → RecState
  | .start ok => startRecording ok st
  | .stop => stopRecording st
  | .reset => resetRecording st

/-- Run a call sequence from a state. -/
def runRec (st : RecState) : List RecEvent → RecState
  | [] => st
  | e :: es => runRec (recStep st e) es

/-- Every stream ever acquired has had `stop()` called on its tracks. -/
def allTracksStopped (st : RecState) : Prop :=
  ∀ i, i < st.nextStreamId → i ∈ st.stoppedTracks

instance (st : RecState) : Decidable (allTracksStopped st) :=
  Nat.decidableBallLT _ _

/-- A call sequence in which `startRecording` is only invoked while not
recording (the spec's transition table: `startRecording` is valid only
from `Idle`). -/
def validCalls (st : RecState) : List RecEvent → Bool
  | [] => true
  | e :: es =>
      (match e with
       | .start _ => !st.isRecording
       | _ => true) && validCalls (recStep st e) es

/-! ## Helper lemmas -/

theorem lookupField_setFieldList_self (fs : List (String × Json)) (k : String)
    (v : Json) : lookupField (setFieldList fs k v) k = some v := by
  induction fs with
  | nil => simp [setFieldList, lookupField]
  | cons hd tl ih =>
      by_cases h : hd.1 = k
      · simp [setFieldList, lookupField, h]
      · simp [setFieldList, lookupField, h, ih]

theorem lookupField_setFieldList_ne (fs : List (String × Json)) (k k' : String)
    (v : Json) (hne : k ≠ k') :
    lookupField (setFieldList fs k v) k' = lookupField fs k' := by
  induction fs with
  | nil => simp [setFieldList, lookupField, hne]
  | cons hd tl ih =>
      by_cases h : hd.1 = k
      · simp [setFieldList, lookupField, h, hne]
      · simp [setFieldList, lookupField, h, ih]

/-- A JSON value with a truthy field is an object. -/
theorem truthy_getField_obj {j : Json} {k : String}
    (h : truthy (getField j k) = true) : ∃ fs, j = .obj fs := by
  cases j with
  | obj fs => exact ⟨fs, rfl⟩
  | null => simp [getField, truthy] at h
  | bool b => simp [getField, truthy] at h
  | num n => simp [getField, truthy] at h
  | str s => simp [getField, truthy] at h
  | arr xs => simp [getField, truthy] at h

theorem heapRead_heapWrite_self (h : ConfigHeap) (addr : Nat)
    (m : List (String × String)) (haddr : addr < (h : List _).length) :
    heapRead (heapWrite h addr m) addr = m := by
  unfold heapRead heapWrite
  induction h generalizing addr with
  | nil => simp at haddr
  | cons hd tl ih =>
      cases addr with
      | zero => simp [List.set, List.getD]
      | succ a =>
          simp only [List.set, List.getD] at *
          exact ih a (by simpa using haddr)

/-! ## Claims -/

/-- **C10.** `updateApiKey(provider, k)` stores the whitespace-trimmed
value of `k`: a subsequent `getApiKey(provider)` returns `trim k`, and
when `trim k` is empty (whitespace-only input) the mapping entry is
present with the empty string as value but `hasApiKey(provider)` reports
not configured. -/
theorem updateApiKey_stores_trimmed (s : ApiSettings) (p k : String) :
    getApiKey p (updateApiKey p k s) = some (jsTrim k) ∧
    (jsTrim k = "" → hasApiKey p (updateApiKey p k s) = false) := by
  constructor
  · simpa [getApiKey, updateApiKey] using
      lookupEntry_setEntry_self s.config p (jsTrim k)
  · intro h
    simp [hasApiKey, updateApiKey, lookupEntry_setEntry_self, h]
    decide

/-- Witness for C10: storing a whitespace-only key leaves an entry whose
value is `""`, reported as not configured. -/
theorem updateApiKey_stores_trimmed_witness :
    getApiKey "openai" (updateApiKey "openai" "   " defaultSettings) = some "" ∧
    hasApiKey "openai" (updateApiKey "openai" "   " defaultSettings) = false := by
  refine ⟨?_, (updateApiKey_stores_trimmed defaultSettings "openai" "   ").2 (by decide)⟩
  have h := (updateApiKey_stores_trimmed defaultSettings "openai" "   ").1
  simpa [show jsTrim "   " = "" from by decide] using h

/-- **C3 counterexample.** `updateApiKey` is *not* a validation-gated
no-op: the format-invalid key `"bad"` fails `validateApiKey` for
`openai`, yet after `updateApiKey` the mapping entry is present with
that invalid value. -/
theorem updateApiKey_ignores_validation_cex :
    validateApiKey "openai" "bad" = false ∧
    getApiKey "openai" (updateApiKey "openai" "bad" defaultSettings) = some "bad" := by
  constructor
  · decide
  · decide

/-- **C3 (amended).** `ApiConfigManager.updateApiKey` performs no
validation: it stores the trimmed value unconditionally, so even a value
failing `validateApiKey` for that provider ends up present in the
credential mapping (format validation happens only at UI call sites).
The spec's invariant "present only if non-empty and format-valid" does
not hold at the manager level. -/
theorem updateApiKey_stores_despite_invalid (s : ApiSettings) (p k : String)
    (hval : validateApiKey p k = false) :
    getApiKey p (updateApiKey p k s) = some (jsTrim k) := by
  have := hval
  simpa [getApiKey, updateApiKey] using
    lookupEntry_setEntry_self s.config p (jsTrim k)

/-- Witness for the amended C3 at the invalid key `"bad"`. -/
theorem updateApiKey_stores_despite_invalid_witness :
    getApiKey "openai" (updateApiKey "openai" "bad" defaultSettings) =
      some (jsTrim "bad") :=
  updateApiKey_stores_despite_invalid defaultSettings "openai" "bad" (by decide)

/-- **C1.** Whenever the provider resolved by
`ImageProviderFactory.getProvider` reports `isConfigured() = false`,
`ImageProviderFactory.generateImage` rejects with the configuration
error naming that provider and issues no network call (the trace of
network calls is empty), so it never silently substitutes another
provider. -/
theorem factoryGenerateImage_unconfigured_rejects (s : ApiSettings)
    (env : NetEnv) (params : UnifiedImageParams) (providerType : Option String)
    (p : ImgProviderImpl) (hres : getProviderImage providerType s = .ok p)
    (hcfg : imgIsConfigured p s = false) :
    factoryGenerateImage s env params providerType =
      (.error (imgProviderName p ++
        " não está configurado. Configure a chave API primeiro."), []) := by
  simp [factoryGenerateImage, hres, hcfg]

/-- Settings where only `openai` has a stored credential but the
selected image provider is `runware` (the claim's scenario). -/
def runwareSelectedOpenaiKeyed : ApiSettings :=
  { config := [("openai", "sk-abcdefghijklmnopqrstuvwx")]
    selectedImageProvider := "runware"
    selectedTextProvider := "openai"
    selectedVideoProvider := "heygen" }

/-- A network environment (never reached in the witness). -/
def idleNetEnv : NetEnv :=
  { openaiImage := .error "offline", runwareImage := .error "offline" }

/-- Witness for C1: with `runware` selected and only an OpenAI key
stored, `generateImage` rejects naming Runware and issues no network
call — no silent substitution of OpenAI. -/
theorem factoryGenerateImage_unconfigured_rejects_witness :
    factoryGenerateImage runwareSelectedOpenaiKeyed idleNetEnv
      { prompt := "anúncio" } none =
      (.error "Runware AI não está configurado. Configure a chave API primeiro.",
       ([] : List NetCall)) :=
  factoryGenerateImage_unconfigured_rejects runwareSelectedOpenaiKeyed idleNetEnv
    { prompt := "anúncio" } none ImgProviderImpl.runwareP rfl (by decide)

/-- Poll loop on an all-non-terminal prefix: the budget is consumed one
check per attempt. -/
theorem pollGo_all_nonTerminal (env : Nat → RunwayPollResp) :
    ∀ fuel i, (∀ j, j < fuel → nonTerminalOk (env (i + j)) = true) →
      pollGo env fuel i = (.timeout, fuel) := by
  intro fuel
  induction fuel with
  | zero => intro i _; rfl
  | succ f ih =>
      intro i h
      have h0 : nonTerminalOk (env i) = true := by
        simpa using h 0 (Nat.succ_pos f)
      cases henv : env i with
      | httpError code => rw [henv] at h0; simp [nonTerminalOk] at h0
      | ok r =>
          rw [henv] at h0
          have hterm : isTerminalRunway r = false := by
            simpa [nonTerminalOk] using h0
          have hrest : pollGo env f (i + 1) = (.timeout, f) := by
            refine ih (i + 1) (fun j hj => ?_)
            have := h (j + 1) (Nat.succ_lt_succ hj)
            simpa [Nat.add_assoc, Nat.add_comm 1 j] using this
          simp [pollGo, henv, hterm, hrest]

/-- **C6.** For every attempt budget `N`, a poll loop in which every
status check reports a non-terminal status performs exactly `N` status
checks and then terminates with the synthesized timeout outcome — it
never loops indefinitely (the loop is total by construction, and the
count of issued checks is exactly `N`). -/
theorem pollForCompletion_all_running_times_out (env : Nat → RunwayPollResp)
    (n : Nat) (h : ∀ j, j < n → nonTerminalOk (env j) = true) :
    pollForCompletion env n = (.timeout, n) := by
  have := pollGo_all_nonTerminal env n 0 (fun j hj => by simpa using h j hj)
  simpa [pollForCompletion] using this

/-- A status check that always reports `RUNNING`. -/
def alwaysRunningEnv : Nat → RunwayPollResp :=
  fun _ => .ok { id := "task", status := .RUNNING, image := none,
                 failureReason := none, seed := none }

/-- Witness for C6 at the code's budget of 30. -/
theorem pollForCompletion_all_running_times_out_witness :
    pollForCompletion alwaysRunningEnv 30 = (.timeout, 30) :=
  pollForCompletion_all_running_times_out alwaysRunningEnv 30 (fun _ _ => rfl)

/-- Poll loop reaching a terminal response at relative position `k`:
the loop exits right there with that provider-reported result, having
issued `k + 1` checks. -/
theorem pollGo_terminal_at (env : Nat → RunwayPollResp) (r : RunwayTaskResult)
    (hterm : isTerminalRunway r = true) :
    ∀ k fuel i, k < fuel →
      (∀ j, j < k → nonTerminalOk (env (i + j)) = true) →
      env (i + k) = .ok r →
      pollGo env fuel i = (.terminal r, k + 1) := by
  intro k
  induction k with
  | zero =>
      intro fuel i hk _ henv
      cases fuel with
      | zero => exact absurd hk (Nat.lt_irrefl 0)
      | succ f =>
          have henv' : env i = .ok r := by simpa using henv
          simp [pollGo, henv', hterm]
  | succ k ih =>
      intro fuel i hk hrun henv
      cases fuel with
      | zero => exact absurd hk (Nat.not_lt_zero _)
      | succ f =>
          have h0 : nonTerminalOk (env i) = true := by
            simpa using hrun 0 (Nat.succ_pos k)
          cases henv0 : env i with
          | httpError code => rw [henv0] at h0; simp [nonTerminalOk] at h0
          | ok r0 =>
              rw [henv0] at h0
              have hterm0 : isTerminalRunway r0 = false := by
                simpa [nonTerminalOk] using h0
              have hrest : pollGo env f (i + 1) = (.terminal r, k + 1) := by
                refine ih f (i + 1) (Nat.lt_of_succ_lt_succ hk)
                  (fun j hj => ?_) ?_
                · have := hrun (j + 1) (Nat.succ_lt_succ hj)
                  simpa [Nat.add_assoc, Nat.add_comm 1 j] using this
                · have : i + 1 + k = i + (k + 1) := by omega
                  rw [this]; exact henv
              simp [pollGo, henv0, hterm0, hrest]

/-- **C2.** When a status check reports the terminal state `FAILED`
(after only non-terminal checks before it, within the budget of 30),
`pollForCompletion` exits immediately with the provider-reported result —
a `PollOutcome.terminal` carrying the `FAILED` task, issued after
exactly `k + 1` checks — and that outcome is distinct from the
synthesized `PollOutcome.timeout` produced only on budget exhaustion. -/
theorem pollForCompletion_failed_exits_immediately (env : Nat → RunwayPollResp)
    (r : RunwayTaskResult) (k : Nat) (hk : k < 30)
    (hrun : ∀ j, j < k → nonTerminalOk (env j) = true)
    (henv : env k = .ok r) (hfail : r.status = .FAILED) :
    pollForCompletion env 30 = (.terminal r, k + 1) ∧
      (PollOutcome.terminal r ≠ PollOutcome.timeout) := by
  refine ⟨?_, by intro h; cases h⟩
  have hterm : isTerminalRunway r = true := by
    simp [isTerminalRunway, hfail]
  have := pollGo_terminal_at env r hterm k 30 0 hk
    (fun j hj => by simpa using hrun j hj) (by simpa using henv)
  simpa [pollForCompletion] using this

/-- A task that reports provider-side failure. -/
def failedTask : RunwayTaskResult :=
  { id := "task", status := .FAILED, image := none,
    failureReason := some "quota excedida", seed := none }

/-- Witness for C2: the very first check reports `FAILED`; the loop
exits after one check with the provider-reported result. -/
theorem pollForCompletion_failed_exits_immediately_witness :
    pollForCompletion (fun _ => .ok failedTask) 30 = (.terminal failedTask, 1) ∧
      (PollOutcome.terminal failedTask ≠ PollOutcome.timeout) :=
  pollForCompletion_failed_exits_immediately (fun _ => .ok failedTask) failedTask
    0 (by decide) (fun j hj => absurd hj (Nat.not_lt_zero j)) rfl rfl

/-- Settings with only a HeyGen credential stored. -/
def heyGenKeyedSettings : ApiSettings :=
  { config := [("heygen", "heygen12345key")]
    selectedImageProvider := "openai"
    selectedTextProvider := "openai"
    selectedVideoProvider := "heygen" }

/-- A HeyGen status environment whose first check reports `completed`
with no `video_url` in the payload. -/
def completedNoUrlEnv : Nat → HeyGenPollResp :=
  fun _ => .ok "completed" none none none

/-- **C5 counterexample.** On the HeyGen video path, a poll loop that
reaches terminal success with a missing asset URL does *not* produce a
failure outcome: `HeyGenProvider.generateVideo` returns a success result
whose `video_url` is the empty string (`video_url: result.video_url ||
''`), contradicting the claim that a terminal success with no
retrievable asset is always turned into a failure. -/
theorem heyGenProvider_success_with_empty_url_cex :
    heyGenProviderGenerateVideo heyGenKeyedSettings (.ok "vid1")
      completedNoUrlEnv none =
      .ok { videoUrl := "", thumbnailUrl := none, duration := none,
            format := "vertical", provider := "heygen" } := by
  rfl

/-- **C5 (amended).** The no-empty-asset guarantee holds on the Runway
image path: `RunwayService.generateImage` never resolves successfully
with an empty asset URL — a terminal success whose `image` field is
missing or empty is rejected (`Nenhuma imagem retornada`), and a
provider-reported failure is rejected (`Geração falhou`).  The HeyGen
video path does not share this guarantee (see the counterexample): there
a completed poll with a missing URL yields a success whose `video_url`
is `""`. -/
theorem runwayGenerateImage_ok_has_asset (submit : RunwaySubmitResp)
    (env : Nat → RunwayPollResp) (prompt : String) (r : RunwayGeneratedImage)
    (h : runwayGenerateImage submit env prompt = .ok r) : r.url ≠ "" := by
  unfold runwayGenerateImage at h
  cases submit with
  | httpError code body => simp at h
  | ok taskId =>
      rcases hp : pollForCompletion env 30 with ⟨outcome, n⟩
      rw [hp] at h
      cases outcome with
      | timeout => simp at h
      | statusCheckError code => simp at h
      | terminal result =>
          simp only at h
          by_cases hf : (result.status == RunwayStatus.FAILED) = true
          · rw [if_pos hf] at h; simp at h
          · rw [if_neg hf] at h
            cases himg : result.image with
            | none => rw [himg] at h; simp at h
            | some img =>
                rw [himg] at h
                dsimp only at h
                by_cases he : strIsEmpty img = true
                · rw [if_pos he] at h; simp at h
                · rw [if_neg he] at h
                  injection h with h'
                  subst h'
                  intro hurl
                  apply he
                  rw [show img = "" from hurl]
                  rfl

/-- A status environment whose first check reports terminal success
with a concrete asset URL. -/
def succeededWithImageEnv : Nat → RunwayPollResp :=
  fun _ => .ok { id := "task", status := .SUCCEEDED,
                 image := some "https://img.example/1.webp",
                 failureReason := none, seed := some 7 }

/-- Witness for the amended C5: a successful Runway generation carries a
non-empty asset URL. -/
theorem runwayGenerateImage_ok_has_asset_witness :
    ({ url := "https://img.example/1.webp", seed := some 7, prompt := "p",
       taskId := "task" } : RunwayGeneratedImage).url ≠ "" :=
  runwayGenerateImage_ok_has_asset (.ok "task") succeededWithImageEnv "p" _ rfl

theorem getField_setField_self (fs : List (String × Json)) (k : String)
    (v : Json) : getField (setField (.obj fs) k v) k = some v := by
  simp [setField, getField, lookupField_setFieldList_self]

theorem getField_setField_ne (fs : List (String × Json)) (k k' : String)
    (v : Json) (h : k ≠ k') :
    getField (setField (.obj fs) k v) k' = getField (.obj fs) k' := by
  simp [setField, getField, lookupField_setFieldList_ne fs k k' v h]

/-- Acceptance shape of `importSettings` once both gate conditions hold. -/
theorem importSettings_accepted_eq (fs : List (String × Json)) (current : Json)
    (hc : truthy (getField (.obj fs) "config") = true)
    (hsip : truthy (getField (.obj fs) "selectedImageProvider") = true) :
    importSettings (some (.obj fs)) current =
      (true,
        let i1 :=
          if truthy (getField (.obj fs) "selectedTextProvider") then (.obj fs : Json)
          else setField (.obj fs) "selectedTextProvider" (.str "openai")
        if truthy (getField i1 "selectedVideoProvider") then i1
        else setField i1 "selectedVideoProvider" (.str "heygen")) := by
  simp [importSettings, hc, hsip]

/-- A parseable blob that *does* contain a credential mapping but no
`selectedImageProvider` field. -/
def configOnlyBlob : Json := .obj [("config", .obj [])]

/-- **C4 counterexample.** A parseable blob containing a credential
mapping is *not* always accepted: `importSettings` also requires a
truthy `selectedImageProvider` field, so `{"config": {}}` is rejected
(`false` reported, state unchanged), contradicting the claim that any
parseable blob with a credential mapping is accepted with defaults
substituted. -/
theorem importSettings_config_only_rejected_cex :
    importSettings (some configOnlyBlob) (encodeSettings defaultSettings) =
      (false, encodeSettings defaultSettings) := by
  rfl

/-- **C4 (amended).** `importSettings` rejects — reporting `false` and
leaving the existing settings untouched — when the blob fails to parse
*or* lacks a truthy credential mapping *or* lacks a truthy
`selectedImageProvider` field; when both gate fields are present it
accepts, substituting the documented defaults (`"openai"` for the text
provider, `"heygen"` for the video provider) for absent
provider-selection fields. -/
theorem importSettings_gating (current : Json) :
    importSettings none current = (false, current) ∧
    (∀ j : Json,
      (truthy (getField j "config") &&
        truthy (getField j "selectedImageProvider")) = false →
      importSettings (some j) current = (false, current)) ∧
    (∀ j : Json,
      truthy (getField j "config") = true →
      truthy (getField j "selectedImageProvider") = true →
      (importSettings (some j) current).1 = true ∧
      (getField j "selectedTextProvider" = none →
        getField (importSettings (some j) current).2 "selectedTextProvider" =
          some (.str "openai")) ∧
      (getField j "selectedVideoProvider" = none →
        getField (importSettings (some j) current).2 "selectedVideoProvider" =
          some (.str "heygen"))) := by
  refine ⟨rfl, fun j hcond => by simp [importSettings, hcond], fun j hc hsip => ?_⟩
  obtain ⟨fs, rfl⟩ := truthy_getField_obj hc
  rw [importSettings_accepted_eq fs current hc hsip]
  have hsf : setField (.obj fs) "selectedTextProvider" (.str "openai") =
      .obj (setFieldList fs "selectedTextProvider" (.str "openai")) := rfl
  refine ⟨rfl, fun htext => ?_, fun hvid => ?_⟩
  · have hneg : ¬ truthy (getField (.obj fs) "selectedTextProvider") = true := by
      rw [htext]; simp [truthy]
    simp only
    rw [if_neg hneg, hsf]
    by_cases hv : truthy (getField
        (.obj (setFieldList fs "selectedTextProvider" (.str "openai")))
        "selectedVideoProvider") = true
    · rw [if_pos hv]
      exact getField_setField_self fs "selectedTextProvider" (.str "openai")
    · rw [if_neg hv]
      rw [getField_setField_ne _ "selectedVideoProvider" "selectedTextProvider"
        (.str "heygen") (by decide)]
      exact getField_setField_self fs "selectedTextProvider" (.str "openai")
  · simp only
    by_cases ht : truthy (getField (.obj fs) "selectedTextProvider") = true
    · rw [if_pos ht]
      have hneg : ¬ truthy (getField (.obj fs) "selectedVideoProvider") = true := by
        rw [hvid]; simp [truthy]
      rw [if_neg hneg]
      exact getField_setField_self fs "selectedVideoProvider" (.str "heygen")
    · rw [if_neg ht, hsf]
      have hvid1 : getField
          (.obj (setFieldList fs "selectedTextProvider" (.str "openai")))
          "selectedVideoProvider" = none := by
        rw [← hsf, getField_setField_ne fs "selectedTextProvider"
          "selectedVideoProvider" (.str "openai") (by decide)]
        exact hvid
      have hneg : ¬ truthy (getField
          (.obj (setFieldList fs "selectedTextProvider" (.str "openai")))
          "selectedVideoProvider") = true := by
        rw [hvid1]; simp [truthy]
      rw [if_neg hneg]
      exact getField_setField_self _ "selectedVideoProvider" (.str "heygen")

/-- A blob with the two gate fields and neither provider-selection
default field. -/
def gateOnlyBlob : Json :=
  .obj [("config", .obj [("openai", .str "sk-x")]),
        ("selectedImageProvider", .str "runware")]

/-- Witness for the amended C4: a blob with only `config` and
`selectedImageProvider` is accepted and both missing selection fields
come back as their documented defaults. -/
theorem importSettings_gating_witness :
    (importSettings (some gateOnlyBlob) (encodeSettings defaultSettings)).1 = true ∧
    getField (importSettings (some gateOnlyBlob)
        (encodeSettings defaultSettings)).2 "selectedTextProvider" =
      some (.str "openai") ∧
    getField (importSettings (some gateOnlyBlob)
        (encodeSettings defaultSettings)).2 "selectedVideoProvider" =
      some (.str "heygen") := by
  obtain ⟨-, -, h⟩ := importSettings_gating (encodeSettings defaultSettings)
  obtain ⟨ha, hb, hc⟩ := h gateOnlyBlob rfl rfl
  exact ⟨ha, hb rfl, hc rfl⟩

/-- **C7.** Export/import round-trip: importing the blob produced by
`exportSettings` succeeds and reproduces the exported snapshot — same
credential mapping, same selected text/image/video providers (the stored
object is exactly the encoded snapshot).  The hypotheses record that the
selections are well-typed provider identifiers (non-empty strings). -/
theorem importSettings_exportSettings_roundtrip (s : ApiSettings) (current : Json)
    (h1 : s.selectedImageProvider ≠ "") (h2 : s.selectedTextProvider ≠ "")
    (h3 : s.selectedVideoProvider ≠ "") :
    importSettings (exportSettings s) current = (true, encodeSettings s) := by
  have e1 : strIsEmpty s.selectedImageProvider = false :=
    (strIsEmpty_eq_false_iff _).2 h1
  have e2 : strIsEmpty s.selectedTextProvider = false :=
    (strIsEmpty_eq_false_iff _).2 h2
  have e3 : strIsEmpty s.selectedVideoProvider = false :=
    (strIsEmpty_eq_false_iff _).2 h3
  simp [exportSettings, importSettings, encodeSettings, getField, lookupField,
    truthy, e1, e2, e3]

/-- A populated snapshot for the round-trip witness. -/
def roundtripSampleSettings : ApiSettings :=
  { config := [("openai", "sk-abcdefghijklmnopqrstuvwx"), ("heygen", "hg-key-123456")]
    selectedImageProvider := "openai"
    selectedTextProvider := "claude"
    selectedVideoProvider := "heygen" }

/-- Witness for C7 on a populated snapshot. -/
theorem importSettings_exportSettings_roundtrip_witness :
    importSettings (exportSettings roundtripSampleSettings)
      (encodeSettings defaultSettings) =
      (true, encodeSettings roundtripSampleSettings) :=
  importSettings_exportSettings_roundtrip roundtripSampleSettings
    (encodeSettings defaultSettings) (by decide) (by decide) (by decide)

/-- A store whose credential object lives at heap address 0. -/
def aliasDemoStore : StoreState :=
  { configAddr := 0, selectedImageProvider := "openai",
    selectedTextProvider := "openai", selectedVideoProvider := "heygen" }

/-- A one-object heap: the store's (empty) credential object. -/
def aliasDemoHeap : ConfigHeap := [[]]

/-- **C8 counterexample.** `getSettings` returns only a *shallow* copy:
the returned object's nested credential mapping is the same heap object
as the store's own, so mutating it through the snapshot changes a later
read of the store — before the mutation `storeGetApiKey` finds no
`openai` key, after writing through the snapshot it returns the injected
value.  This contradicts the claim that no mutation of the returned
object (including its nested credential mapping) can change the store. -/
theorem getSettings_shallow_copy_cex :
    storeGetApiKey aliasDemoStore aliasDemoHeap "openai" = none ∧
    storeGetApiKey aliasDemoStore
      (snapshotSetConfigEntry (getSettingsRef aliasDemoStore) aliasDemoHeap
        "openai" "sk-injected") "openai" = some "sk-injected" := by
  constructor
  · rfl
  · rfl

/-- **C8 (amended).** `getSettings` returns a fresh top-level object
(`{ ...this.settings }`), so reassigning the snapshot's own top-level
fields cannot affect the store; but the spread copies the `config`
*reference*: the snapshot's nested credential mapping is the very heap
object the store reads, and a write through the snapshot is visible to
every later read of the store. -/
theorem getSettings_shares_config_reference (st : StoreState) (h : ConfigHeap)
    (k v : String) (haddr : st.configAddr < (h : List _).length) :
    (getSettingsRef st).configAddr = st.configAddr ∧
    storeGetApiKey st
      (snapshotSetConfigEntry (getSettingsRef st) h k v) k = some v := by
  refine ⟨rfl, ?_⟩
  unfold storeGetApiKey snapshotSetConfigEntry getSettingsRef
  simp only
  rw [heapRead_heapWrite_self h st.configAddr _ haddr]
  exact lookupEntry_setEntry_self _ k v

/-- Witness for the amended C8 on the one-object heap. -/
theorem getSettings_shares_config_reference_witness :
    (getSettingsRef aliasDemoStore).configAddr = aliasDemoStore.configAddr ∧
    storeGetApiKey aliasDemoStore
      (snapshotSetConfigEntry (getSettingsRef aliasDemoStore) aliasDemoHeap
        "heygen" "hg-1234567890") "heygen" = some "hg-1234567890" :=
  getSettings_shares_config_reference aliasDemoStore aliasDemoHeap
    "heygen" "hg-1234567890" (by decide)

/-- The recorder invariant tying held streams to the machine's flags:
every acquired stream is stopped or currently held, and a held stream
implies an active recording with a live recorder. -/
def RecInv (st : RecState) : Prop :=
  (∀ i, i < st.nextStreamId → i ∈ st.stoppedTracks ∨ st.streamRef = some i) ∧
  (∀ j, st.streamRef = some j →
    st.isRecording = true ∧ st.recorderRef.isSome = true)

theorem recInv_init : RecInv initRec := by
  constructor
  · intro i hi; simp [initRec] at hi
  · intro j hj; simp [initRec] at hj

theorem recInv_start (st : RecState) (ok : Bool) (hrec : st.isRecording = false)
    (hInv : RecInv st) : RecInv (startRecording ok st) := by
  obtain ⟨h1, h2⟩ := hInv
  cases ok with
  | false => exact ⟨h1, h2⟩
  | true =>
      have hstream : st.streamRef = none := by
        cases hs : st.streamRef with
        | none => rfl
        | some j =>
            have := (h2 j hs).1
            rw [hrec] at this
            exact absurd this (by simp)
      constructor
      · intro i hi
        simp only [startRecording, if_pos rfl] at *
        rcases Nat.lt_succ_iff_lt_or_eq.1 hi with hlt | heq
        · rcases h1 i hlt with hmem | hheld
          · exact Or.inl hmem
          · rw [hstream] at hheld; cases hheld
        · exact Or.inr (by simp [heq])
      · intro j hj
        simp [startRecording]

theorem recInv_stop (st : RecState) (hInv : RecInv st) :
    RecInv (stopRecording st) := by
  obtain ⟨h1, h2⟩ := hInv
  unfold stopRecording
  by_cases hg : (st.recorderRef.isSome && st.isRecording) = true
  · rw [if_pos hg]
    unfold onRecorderStop
    cases hs : st.streamRef with
    | none =>
        simp only [hs]
        refine ⟨fun i hi => ?_, fun j hj => ?_⟩
        · rcases h1 i hi with hmem | hheld
          · exact Or.inl hmem
          · rw [hs] at hheld; cases hheld
        · simp only [hs] at hj; cases hj
    | some sid =>
        simp only [hs]
        refine ⟨fun i hi => ?_, fun j hj => ?_⟩
        · rcases h1 i hi with hmem | hheld
          · exact Or.inl (List.mem_cons_of_mem _ hmem)
          · rw [hs] at hheld
            injection hheld with he
            exact Or.inl (by simp [he])
        · simp only at hj; cases hj
  · rw [if_neg hg]
    exact ⟨h1, h2⟩

theorem stopRecording_streamRef_none (st : RecState) (hInv : RecInv st)
    (hrec : st.isRecording = true) :
    (stopRecording st).streamRef = none := by
  cases hr : st.streamRef with
  | none =>
      by_cases hg : (st.recorderRef.isSome && st.isRecording) = true
      · simp [stopRecording, onRecorderStop, hg, hr]
      · simp [stopRecording, hg, hr]
  | some j =>
      have hrecorder := (hInv.2 j hr).2
      have hg : (st.recorderRef.isSome && st.isRecording) = true := by
        rw [hrecorder, hrec]; rfl
      simp [stopRecording, onRecorderStop, hg, hr]

theorem recInv_reset_allStopped (st : RecState) (hInv : RecInv st) :
    allTracksStopped (resetRecording st) := by
  intro i hi
  cases hrec : st.isRecording with
  | true =>
      have h1 := (recInv_stop st hInv).1
      have hstream := stopRecording_streamRef_none st hInv hrec
      have hi' : i < (stopRecording st).nextStreamId := by
        simpa [resetRecording, hrec] using hi
      have hgoal : i ∈ (stopRecording st).stoppedTracks := by
        rcases h1 i hi' with hmem | hheld
        · exact hmem
        · rw [hstream] at hheld; cases hheld
      simpa [resetRecording, hrec] using hgoal
  | false =>
      have hstream : st.streamRef = none := by
        cases hs : st.streamRef with
        | none => rfl
        | some j =>
            exact absurd ((hInv.2 j hs).1) (by simp [hrec])
      have hi' : i < st.nextStreamId := by
        simpa [resetRecording, hrec] using hi
      rcases hInv.1 i hi' with hmem | hheld
      · simpa [resetRecording, hrec] using hmem
      · rw [hstream] at hheld; cases hheld

theorem resetRecording_streamRef_none (st : RecState) (hInv : RecInv st) :
    (resetRecording st).streamRef = none := by
  cases hrec : st.isRecording with
  | true =>
      have := stopRecording_streamRef_none st hInv hrec
      simpa [resetRecording, hrec] using this
  | false =>
      have hstream : st.streamRef = none := by
        cases hs : st.streamRef with
        | none => rfl
        | some j =>
            exact absurd ((hInv.2 j hs).1) (by simp [hrec])
      simpa [resetRecording, hrec] using hstream

theorem recInv_reset (st : RecState) (hInv : RecInv st) :
    RecInv (resetRecording st) := by
  refine ⟨fun i hi => Or.inl (recInv_reset_allStopped st hInv i hi),
    fun j hj => ?_⟩
  rw [resetRecording_streamRef_none st hInv] at hj
  cases hj

theorem recInv_run (es : List RecEvent) :
    ∀ st, RecInv st → validCalls st es = true → RecInv (runRec st es) := by
  induction es with
  | nil => intro st hInv _; exact hInv
  | cons e rest ih =>
      intro st hInv hvalid
      have hsplit := Bool.and_eq_true_iff.1 hvalid
      refine ih (recStep st e) ?_ hsplit.2
      cases e with
      | start ok =>
          have hrec : st.isRecording = false := by
            have := hsplit.1
            simpa using this
          exact recInv_start st ok hrec hInv
      | stop => exact recInv_stop st hInv
      | reset => exact recInv_reset st hInv

theorem runRec_append (es es' : List RecEvent) :
    ∀ st, runRec st (es ++ es') = runRec (runRec st es) es' := by
  induction es with
  | nil => intro st; rfl
  | cons e rest ih => intro st; simp [runRec, ih]

theorem validCalls_append_left (es es' : List RecEvent) :
    ∀ st, validCalls st (es ++ es') = true → validCalls st es = true := by
  induction es with
  | nil => intro st _; rfl
  | cons e rest ih =>
      intro st h
      have hsplit := Bool.and_eq_true_iff.1 h
      exact Bool.and_eq_true_iff.2 ⟨hsplit.1, ih (recStep st e) hsplit.2⟩

/-- **C9 (amended).** Provided `startRecording` is only invoked while
not recording (the spec's own transition table: it is valid only from
`Idle`), the hook releases every hardware stream: after any call
sequence ending in `resetRecording`, `stop()` has been called on every
track of every stream ever acquired.  Without that proviso the property
fails (see the counterexample: a second `startRecording` while recording
overwrites `streamRef` and orphans the first stream). -/
theorem recorder_releases_all_streams (es : List RecEvent)
    (h : validCalls initRec (es ++ [RecEvent.reset]) = true) :
    allTracksStopped (runRec initRec (es ++ [RecEvent.reset])) := by
  have hes : validCalls initRec es = true :=
    validCalls_append_left es [RecEvent.reset] initRec h
  have hInv : RecInv (runRec initRec es) := recInv_run es initRec recInv_init hes
  rw [runRec_append]
  exact recInv_reset_allStopped (runRec initRec es) hInv

/-- Witness for the amended C9: a start/stop/start cycle ended by reset
leaves no stream unstopped. -/
theorem recorder_releases_all_streams_witness :
    allTracksStopped (runRec initRec
      ([RecEvent.start true, RecEvent.stop, RecEvent.start true] ++
        [RecEvent.reset])) :=
  recorder_releases_all_streams
    [RecEvent.start true, RecEvent.stop, RecEvent.start true] (by decide)

/-- **C9 counterexample.** The claim quantifies over *any* sequence of
`startRecording`/`stopRecording`/`resetRecording` calls.  Calling
`startRecording` twice in a row (the hook has no state guard) acquires a
second stream and overwrites `streamRef`; the final `resetRecording`
stops only the second stream, so the first stream's tracks are never
stopped — a hardware handle leaks. -/
theorem recorder_double_start_leaks_cex :
    ¬ allTracksStopped (runRec initRec
      [RecEvent.start true, RecEvent.start true, RecEvent.reset]) := by
  decide

end AdCreator
